import Mathlib

/-!
Shallow embedding of `src/app.py` (a FastAPI relay that validates a
contact-form submission and forwards it to Telegram), together with proofs
about its behavior.

The handlers are modelled as pure functions.  The current time is passed
explicitly as a `PyDatetime`; the external Telegram client (an external
collaborator of the program) is injected as a `ClientBehavior` value
describing what its calls would do.  Python exceptions are modelled with
`Except`: the endpoint body computes an `Except PyExc` value and the outer
`except Exception` clause of `send_message` maps any raised exception to an
HTTP 500 response, exactly as in the source.
-/

/-- Python `str.strip()`: drop whitespace characters from both ends. -/
def pyStrip (s : String) : String :=
  String.mk (((s.data.dropWhile Char.isWhitespace).reverse.dropWhile
    Char.isWhitespace).reverse)

/-- Auxiliary for Python `str.split(sep)` with a single-character separator:
walks the characters, `acc` holding the current chunk reversed. -/
def pySplitCharAux (c : Char) : List Char → List Char → List (List Char)
  | [], acc => [acc.reverse]
  | x :: xs, acc =>
      if x = c then acc.reverse :: pySplitCharAux c xs []
      else pySplitCharAux c xs (x :: acc)

/-- Python `s.split(c)` for a one-character separator `c`. -/
def pySplitChar (s : String) (c : Char) : List String :=
  (pySplitCharAux c s.data []).map String.mk

/-- Python `s.split('.')[0]` (the split result is never empty, so the default
is never used). -/
def pySplitDotHead (s : String) : String :=
  (pySplitChar s '.').headD ""

/-- Left-pad the decimal rendering of `n` with zeros to width `w`
(Python `%0wd` formatting of a nonnegative integer). -/
def padNum (w n : Nat) : String :=
  let s := toString n
  String.mk (List.replicate (w - s.length) '0') ++ s

/-- A timezone-aware UTC `datetime.datetime` value, as produced by
`datetime.now(timezone.utc)` in the source. -/
structure PyDatetime where
  year : Nat
  month : Nat
  day : Nat
  hour : Nat
  minute : Nat
  second : Nat
  microsecond : Nat
deriving DecidableEq

/-- Python `datetime.isoformat()` on a UTC-aware datetime:
`YYYY-MM-DDTHH:MM:SS[.ffffff]+00:00`, the fractional part omitted exactly
when `microsecond` is zero. -/
def isoformatUTC (t : PyDatetime) : String :=
  padNum 4 t.year ++ "-" ++ padNum 2 t.month ++ "-" ++ padNum 2 t.day ++ "T" ++
  padNum 2 t.hour ++ ":" ++ padNum 2 t.minute ++ ":" ++ padNum 2 t.second ++
  (if t.microsecond = 0 then "" else "." ++ padNum 6 t.microsecond) ++
  "+00:00"

/-- Response body of `GET /health` (`src/app.py`, lines 29-35). -/
structure HealthResponse where
  status : String
  message : String
  timestamp : String
deriving DecidableEq

/-- The `/health` endpoint (`src/app.py`, lines 29-35); `now` is the value of
`datetime.now(timezone.utc)` at the moment of the call. -/
def health_check (now : PyDatetime) : HealthResponse :=
  { status := "healthy"
    message := "Telegram backend is running"
    timestamp := isoformatUTC now ++ " UTC" }

/-- Request body of `POST /send-message` (`class MessageData`, lines 24-27). -/
structure MessageData where
  name : String
  email : String
  message : String
deriving DecidableEq

/-- Python `c in s` for a single character `c`: membership of the character
in the string. -/
def pyContainsChar (s : String) (c : Char) : Bool :=
  s.data.contains c

/-- The email validation condition of line 69:
`'@' not in email or '.' not in email.split('@')[1]`.
(The second disjunct is only reached when `'@'` occurs in `email`, so the
list indexed at 1 exists; the `getD` default is never used there.) -/
def emailCheckFails (email : String) : Bool :=
  !(pyContainsChar email '@') ||
    !(pyContainsChar ((pySplitChar email '@').getD 1 "") '.')

/-- The Telegram message template of lines 73-83, an f-string over the
stripped fields and the timestamp. -/
def telegramMessage (name email message timestamp : String) : String :=
  "*New Message*\n" ++
  "_Received on: " ++ timestamp ++ "_\n" ++
  "---\n" ++
  "*Sender Details:*\n" ++
  "- *Name:* " ++ name ++ "\n" ++
  "- *Email:* " ++ email ++ "\n" ++
  "---\n" ++
  "*Message:*\n" ++
  message

/-- Behavior of the external Telegram collaborator during one request:
either the `Bot(...)` constructor raises (line 87, e.g. `InvalidToken` when
the bot token is absent), or `bot.send_message` succeeds, raises a
`TelegramError` (e.g. a missing/unknown chat id), or raises some other
exception.  The collaborator itself is outside `src/`; its outcome is
injected. -/
inductive ClientBehavior where
  | ctorRaises (msg : String)
  | sendSuccess
  | sendRaisesTelegram (detail : String)
  | sendRaisesOther (msg : String)
deriving DecidableEq

/-- A Python exception as far as the handler can observe it: either a
`fastapi.HTTPException` carrying a status code and a detail, or any other
exception carrying its message. -/
inductive PyExc where
  | httpExc (status : Nat) (detail : String)
  | other (msg : String)
deriving DecidableEq

/-- Python `str(e)` for the exceptions above.  Starlette's
`HTTPException.__str__` renders `f"{self.status_code}: {self.detail}"`. -/
def pyExcStr : PyExc → String
  | .httpExc s d => toString s ++ ": " ++ d
  | .other m => m

/-- The success body `{"success": True, "message": "Message sent to Telegram"}`
of line 96. -/
structure SendResultOk where
  success : Bool
  message : String
deriving DecidableEq

/-- What one run of the outer `try` block of `send_message` (lines 60-99)
does: its outcome (a returned body or a raised exception), whether the
outbound `bot.send_message` delivery call was attempted, and the text passed
to it when it was. -/
structure TryTrace where
  outcome : Except PyExc SendResultOk
  deliveryAttempted : Bool
  deliveredText : Option String

/-- The body of the outer `try` of `send_message` (lines 61-99):
strip the three fields, run the three validation checks in order (each
raising a 400 `HTTPException`), build the timestamp and message text, then
perform the delivery call; a `TelegramError` from it is caught and re-raised
as a 500 `HTTPException` (lines 97-99); any other exception propagates. -/
def sendMessageBody (data : MessageData) (now : PyDatetime)
    (client : ClientBehavior) : TryTrace :=
  let name := pyStrip data.name
  let email := pyStrip data.email
  let message := pyStrip data.message
  if name == "" || email == "" || message == "" then
    { outcome := .error (.httpExc 400 "All fields must not be empty")
      deliveryAttempted := false
      deliveredText := none }
  else if message.length > 4096 then
    { outcome := .error (.httpExc 400 "Message exceeds 4096 character limit")
      deliveryAttempted := false
      deliveredText := none }
  else if emailCheckFails email then
    { outcome := .error (.httpExc 400 "Invalid email format")
      deliveryAttempted := false
      deliveredText := none }
  else
    let timestamp := pySplitDotHead (isoformatUTC now) ++ " UTC"
    let text := telegramMessage name email message timestamp
    match client with
    | .ctorRaises m =>
        { outcome := .error (.other m)
          deliveryAttempted := false
          deliveredText := none }
    | .sendSuccess =>
        { outcome := .ok { success := true, message := "Message sent to Telegram" }
          deliveryAttempted := true
          deliveredText := some text }
    | .sendRaisesTelegram d =>
        { outcome := .error (.httpExc 500 ("Failed to send message: " ++ d))
          deliveryAttempted := true
          deliveredText := some text }
    | .sendRaisesOther m =>
        { outcome := .error (.other m)
          deliveryAttempted := true
          deliveredText := some text }

/-- The HTTP-level result of `POST /send-message`: a JSON success body, or an
error response with a status code and a `detail` string. -/
inductive HandlerResult where
  | ok (body : SendResultOk)
  | httpError (status : Nat) (detail : String)
deriving DecidableEq

/-- Full observable trace of one `POST /send-message` request. -/
structure SendTrace where
  result : HandlerResult
  deliveryAttempted : Bool
  deliveredText : Option String
deriving DecidableEq

/-- The `/send-message` endpoint (lines 58-102).  The outer
`except Exception as e` clause (lines 100-102) catches every exception
raised in the `try` block — the validation `HTTPException`s included — and
re-raises it as `HTTPException(500, "Server error: " + str(e))`. -/
def send_message (data : MessageData) (now : PyDatetime)
    (client : ClientBehavior) : SendTrace :=
  let t := sendMessageBody data now client
  { result :=
      match t.outcome with
      | .ok b => .ok b
      | .error e => .httpError 500 ("Server error: " ++ pyExcStr e)
    deliveryAttempted := t.deliveryAttempted
    deliveredText := t.deliveredText }

/-- A submission on which all three validation checks of lines 65-70 pass. -/
def validSubmission (data : MessageData) : Prop :=
  pyStrip data.name ≠ "" ∧ pyStrip data.email ≠ "" ∧
  pyStrip data.message ≠ "" ∧ (pyStrip data.message).length ≤ 4096 ∧
  emailCheckFails (pyStrip data.email) = false

instance (data : MessageData) : Decidable (validSubmission data) := by
  unfold validSubmission; infer_instance

/-- Rendering following the spec words for `/health`: the current UTC time at
second precision (ISO-8601-like), suffixed with a space and `UTC`. -/
def specSecondPrecisionTimestamp (t : PyDatetime) : String :=
  padNum 4 t.year ++ "-" ++ padNum 2 t.month ++ "-" ++ padNum 2 t.day ++ "T" ++
  padNum 2 t.hour ++ ":" ++ padNum 2 t.minute ++ ":" ++ padNum 2 t.second ++
  " UTC"

/-- A sample instant with a nonzero sub-second fraction. -/
def t0 : PyDatetime := ⟨2026, 10, 12, 8, 30, 5, 123456⟩

/-- A sample submission that passes all three validation checks. -/
def data0 : MessageData := ⟨"Alan", "alan@example.com", "Hello"⟩

/-- A 4097-character message, one character over the limit of line 67. -/
def longMsg : String := String.mk (List.replicate 4097 'a')

/-- Result of importing the `src/app.py` module: either the module-level
statements of lines 12-22 all run to completion and the app starts, or one
of them raises and the program crashes at startup. -/
inductive StartupResult where
  | started
  | crashed (msg : String)
deriving DecidableEq

/-- Behavior of the external `Bot(token=...)` constructor as a function of
the configured token (`os.getenv` yields `none` when the environment
variable is absent): `python-telegram-bot`'s `Bot.__init__` raises
`InvalidToken` when the token is absent, mirroring the `ctorRaises` case of
`ClientBehavior`; only the absence case matters here, so any present token
is taken to construct normally. -/
def botCtorOutcome : Option String → Option String
  | none => some "InvalidToken"
  | some _ => none

/-- Module-level initialization of `src/app.py` (lines 15-18): read
`TELEGRAM_BOT_TOKEN` from the environment and run
`bot = Bot(token=TELEGRAM_BOT_TOKEN)` (line 18).  That call has no
surrounding `try`, so if the constructor raises, the exception propagates
out of the module body, the import fails, and the program crashes at
startup, before any request can be served.  `ctor` injects the external
constructor's behavior. -/
def moduleStartup (ctor : Option String → Option String)
    (botToken : Option String) : StartupResult :=
  match ctor botToken with
  | some m => .crashed m
  | none => .started

theorem pySplitCharAux_ne_nil (c : Char) (l acc : List Char) :
    pySplitCharAux c l acc ≠ [] := by
  induction l generalizing acc with
  | nil => simp [pySplitCharAux]
  | cons x xs ih =>
    by_cases hx : x = c
    · simp [pySplitCharAux, hx]
    · simp only [pySplitCharAux, hx, if_false]
      exact ih _

theorem pySplitCharAux_head_not_mem (c : Char) (l : List Char) :
    ∀ (acc a : List Char) (as : List (List Char)), c ∉ acc →
      pySplitCharAux c l acc = a :: as → c ∉ a := by
  induction l with
  | nil =>
    intro acc a as hacc h
    simp only [pySplitCharAux, List.cons.injEq] at h
    rw [← h.1]
    simpa using hacc
  | cons x xs ih =>
    intro acc a as hacc h
    by_cases hx : x = c
    · simp only [pySplitCharAux, hx, if_true, List.cons.injEq] at h
      rw [← h.1]
      simpa using hacc
    · simp only [pySplitCharAux, hx, if_false] at h
      refine ih (x :: acc) a as ?_ h
      simp only [List.mem_cons, not_or]
      exact ⟨fun hc => hx hc.symm, hacc⟩

theorem pySplitDotHead_no_dot (s : String) : '.' ∉ (pySplitDotHead s).data := by
  unfold pySplitDotHead pySplitChar
  cases h : pySplitCharAux '.' s.data [] with
  | nil => exact absurd h (pySplitCharAux_ne_nil _ _ _)
  | cons a as =>
    simp only [h, List.map_cons, List.headD_cons]
    exact pySplitCharAux_head_not_mem '.' s.data [] a as (by simp) h

theorem sendMessageBody_valid_eq (data : MessageData) (now : PyDatetime)
    (client : ClientBehavior) (h : validSubmission data) :
    sendMessageBody data now client =
      { outcome :=
          match client with
          | .ctorRaises m => .error (.other m)
          | .sendSuccess => .ok { success := true, message := "Message sent to Telegram" }
          | .sendRaisesTelegram d => .error (.httpExc 500 ("Failed to send message: " ++ d))
          | .sendRaisesOther m => .error (.other m)
        deliveryAttempted :=
          match client with
          | .ctorRaises _ => false
          | _ => true
        deliveredText :=
          match client with
          | .ctorRaises _ => none
          | _ => some (telegramMessage (pyStrip data.name) (pyStrip data.email)
              (pyStrip data.message) (pySplitDotHead (isoformatUTC now) ++ " UTC")) } := by
  obtain ⟨h1, h2, h3, h4, h5⟩ := h
  have h4' : ¬ (pyStrip data.message).length > 4096 := by omega
  cases client <;> simp [sendMessageBody, h1, h2, h3, h4', h5]

/-- C1: the spec claims that a submission with an empty trimmed field gets a
400 response with detail `All fields must not be empty`.  The handler does
raise that 400 `HTTPException` (line 66), but the outer `except Exception`
clause (lines 100-102) catches it and re-raises it as a 500, so the caller
actually receives status 500 with detail
`Server error: 400: All fields must not be empty`; the delivery call is
never attempted.  This theorem evaluates the embedded handler on the failing
input (whitespace-only name, well-formed email, nonempty message). -/
theorem empty_field_actually_yields_500 :
    (send_message ⟨"   ", "alan@example.com", "hi"⟩ t0 .sendSuccess).result
      = .httpError 500 "Server error: 400: All fields must not be empty" ∧
    (send_message ⟨"   ", "alan@example.com", "hi"⟩ t0 .sendSuccess).deliveryAttempted
      = false := by
  decide

/-- C2: the spec claims an invalid email (no `@`, or no `.` after the first
`@`) gets a 400 response with detail `Invalid email format`.  The 400
`HTTPException` of line 70 is swallowed by the outer `except Exception`
clause and re-raised as a 500, so the caller actually receives status 500
with detail `Server error: 400: Invalid email format`.  This theorem
evaluates the embedded handler on the failing input (an email without `@`,
all fields nonempty, short message). -/
theorem invalid_email_actually_yields_500 :
    (send_message ⟨"Alan", "bad-email", "hi"⟩ t0 .sendSuccess).result
      = .httpError 500 "Server error: 400: Invalid email format" ∧
    (send_message ⟨"Alan", "bad-email", "hi"⟩ t0 .sendSuccess).deliveryAttempted
      = false := by
  decide

/-- C4: the spec claims an over-long message gets a 400 response with the
length-limit reason, checked before the email-format check.  The ordering
part holds (here the email is also malformed, yet the length reason is the
one reported), but the 400 of line 68 is swallowed by the outer
`except Exception` clause, so the caller actually receives status 500 with
detail `Server error: 400: Message exceeds 4096 character limit`.  This
theorem evaluates the embedded handler on a 4097-character message paired
with a malformed email. -/
theorem dropWhile_whitespace_replicate_a (n : Nat) :
    (List.replicate n 'a').dropWhile Char.isWhitespace = List.replicate n 'a' := by
  cases n with
  | zero => rfl
  | succ m =>
    rw [List.replicate_succ, List.dropWhile_cons]
    simp

theorem pyStrip_longMsg : pyStrip longMsg = longMsg := by
  show String.mk (((List.replicate 4097 'a').dropWhile Char.isWhitespace).reverse.dropWhile
    Char.isWhitespace).reverse = longMsg
  rw [dropWhile_whitespace_replicate_a, List.reverse_replicate,
    dropWhile_whitespace_replicate_a, List.reverse_replicate]
  rfl

theorem longMsg_length : longMsg.length = 4097 := by
  show (List.replicate 4097 'a').length = 4097
  exact List.length_replicate 4097 'a'

theorem long_message_actually_yields_500 :
    (send_message ⟨"Alan", "no-at-sign", longMsg⟩ t0 .sendSuccess).result
      = .httpError 500 "Server error: 400: Message exceeds 4096 character limit" ∧
    (send_message ⟨"Alan", "no-at-sign", longMsg⟩ t0 .sendSuccess).deliveryAttempted
      = false := by
  have hmsg : pyStrip longMsg = longMsg := pyStrip_longMsg
  have hne : (pyStrip longMsg == "") = false := by
    rw [hmsg]
    decide
  have hgt : (pyStrip longMsg).length > 4096 := by
    rw [hmsg, longMsg_length]
    omega
  have hname : (pyStrip "Alan" == "") = false := by decide
  have hemail : (pyStrip "no-at-sign" == "") = false := by decide
  constructor
  · simp [send_message, sendMessageBody, hname, hemail, hne, hgt, pyExcStr]
    rfl
  · simp [send_message, sendMessageBody, hname, hemail, hne, hgt]

/-- C3: every failure arising inside the `POST /send-message` handler body —
the three validation failures included, not only delivery failures — is
returned with HTTP status 500 and a detail string prefixed
`Server error: `, because the outermost `except Exception` clause
(lines 100-102) catches every exception raised in the `try` block (the 400
`HTTPException`s of the validation checks included) and re-raises it as a
500. -/
theorem every_handler_error_is_500_server_error (data : MessageData)
    (now : PyDatetime) (client : ClientBehavior) (s : Nat) (d : String)
    (h : (send_message data now client).result = .httpError s d) :
    s = 500 ∧ ∃ r, d = "Server error: " ++ r := by
  simp only [send_message] at h
  cases ho : (sendMessageBody data now client).outcome with
  | ok b => simp [ho] at h
  | error e =>
    simp [ho] at h
    exact ⟨h.1.symm, pyExcStr e, h.2.symm⟩

/-- Witness for C3: the empty-name validation failure is returned with
status 500 and a `Server error: `-prefixed detail. -/
theorem every_handler_error_is_500_server_error_witness :
    (500 : Nat) = 500 ∧
    ∃ r, "Server error: 400: All fields must not be empty" = "Server error: " ++ r :=
  every_handler_error_is_500_server_error ⟨"", "", ""⟩ t0 .sendSuccess 500
    "Server error: 400: All fields must not be empty" (by decide)

/-- C5: for every valid submission (all three trimmed fields non-empty,
trimmed message at most 4096 characters, email passing the format check),
when the external client's delivery call succeeds, `POST /send-message`
returns exactly the body
`{success: true, message: "Message sent to Telegram"}` (line 96). -/
theorem valid_submission_success_body (data : MessageData) (now : PyDatetime)
    (h : validSubmission data) :
    (send_message data now .sendSuccess).result
      = .ok { success := true, message := "Message sent to Telegram" } := by
  simp [send_message, sendMessageBody_valid_eq data now .sendSuccess h]

/-- Witness for C5: a concrete valid submission with a successful client. -/
theorem valid_submission_success_body_witness :
    (send_message data0 t0 .sendSuccess).result
      = .ok { success := true, message := "Message sent to Telegram" } :=
  valid_submission_success_body data0 t0 (by decide)

/-- C6: for every valid submission, when the delivery call raises a
`TelegramError` with detail `boom`, the handler re-raises it as a 500
(line 99), the outer clause wraps it again (line 102), and the caller
receives a 500-equivalent error whose detail string contains `boom`. -/
theorem telegram_error_boom_yields_500_containing_boom (data : MessageData)
    (now : PyDatetime) (h : validSubmission data) :
    ∃ d, (send_message data now (.sendRaisesTelegram "boom")).result
        = .httpError 500 d ∧
      ∃ pre post, d = pre ++ "boom" ++ post := by
  refine ⟨"Server error: 500: Failed to send message: boom", ?_,
    "Server error: 500: Failed to send message: ", "", by decide⟩
  simp [send_message, sendMessageBody_valid_eq data now _ h, pyExcStr]
  rfl

/-- Witness for C6: a concrete valid submission with a client raising
`TelegramError("boom")`. -/
theorem telegram_error_boom_witness :
    ∃ d, (send_message data0 t0 (.sendRaisesTelegram "boom")).result
        = .httpError 500 d ∧
      ∃ pre post, d = pre ++ "boom" ++ post :=
  telegram_error_boom_yields_500_containing_boom data0 t0 (by decide)

/-- C7: for every submission that fails any validation rule, the outbound
`bot.send_message` delivery call is never attempted: the three validation
checks (lines 65-70) raise before the client block (lines 86-94) is
reached. -/
theorem validation_failure_never_delivers (data : MessageData)
    (now : PyDatetime) (client : ClientBehavior)
    (h : pyStrip data.name = "" ∨ pyStrip data.email = "" ∨
      pyStrip data.message = "" ∨ 4096 < (pyStrip data.message).length ∨
      emailCheckFails (pyStrip data.email) = true) :
    (send_message data now client).deliveryAttempted = false := by
  by_cases hb : (pyStrip data.name == "" || pyStrip data.email == "" ||
      pyStrip data.message == "") = true
  · simp [send_message, sendMessageBody, hb]
  · rw [Bool.not_eq_true] at hb
    have hb' : pyStrip data.name ≠ "" ∧ pyStrip data.email ≠ "" ∧
        pyStrip data.message ≠ "" := by
      simpa [not_or, and_assoc] using hb
    by_cases hl : (pyStrip data.message).length > 4096
    · simp [send_message, sendMessageBody, hb, hl]
    · have he : emailCheckFails (pyStrip data.email) = true := by
        rcases h with h | h | h | h | h
        · exact absurd h hb'.1
        · exact absurd h hb'.2.1
        · exact absurd h hb'.2.2
        · exact absurd h hl
        · exact h
      simp [send_message, sendMessageBody, hb, hl, he]

/-- Witness for C7: a whitespace-only message is a validation failure and
the delivery call is not attempted. -/
theorem validation_failure_never_delivers_witness :
    (send_message ⟨"Alan", "alan@example.com", "  "⟩ t0 .sendSuccess).deliveryAttempted
      = false :=
  validation_failure_never_delivers ⟨"Alan", "alan@example.com", "  "⟩ t0
    .sendSuccess (Or.inr (Or.inr (Or.inl (by decide))))

/-- C8 (counterexample): the spec claims the `/health` timestamp is the
current UTC time rendered at second precision.  Line 34 uses the full
`isoformat()` rendering, which keeps the microsecond fraction: at an instant
with microsecond 123456 the returned timestamp contains a sub-second
fraction (a `.` followed by six digits) and differs from the
second-precision rendering the spec describes. -/
theorem health_timestamp_not_second_precision :
    (health_check t0).timestamp = "2026-10-12T08:30:05.123456+00:00 UTC" ∧
    (health_check t0).timestamp ≠ specSecondPrecisionTimestamp t0 ∧
    '.' ∈ (health_check t0).timestamp.data := by
  decide

/-- C8 (amended): `GET /health` never fails and always returns status
`healthy`, the fixed description `Telegram backend is running`, and a
timestamp that is the current UTC time in full `isoformat()` rendering
(microsecond precision when the fraction is nonzero, with the `+00:00`
offset) suffixed with a space and `UTC`. -/
theorem health_check_always_healthy (now : PyDatetime) :
    (health_check now).status = "healthy" ∧
    (health_check now).message = "Telegram backend is running" ∧
    ∃ r, (health_check now).timestamp = r ++ " UTC" ∧ r = isoformatUTC now :=
  ⟨rfl, rfl, isoformatUTC now, rfl, rfl⟩

/-- C9: for every valid submission, the text handed to the delivery call is
the fixed template of lines 73-83: a bold header line, a timestamp line
(current UTC time with the sub-second fraction dropped — the timestamp piece
contains no `.` — plus the literal ` UTC`), a separator, the trimmed name,
the trimmed email, a second separator, and the literal trimmed message body,
with `*`/`_` markup markers. -/
theorem valid_submission_delivered_template (data : MessageData)
    (now : PyDatetime) (h : validSubmission data) :
    (send_message data now .sendSuccess).deliveredText =
      some ("*New Message*\n" ++ "_Received on: " ++
        (pySplitDotHead (isoformatUTC now) ++ " UTC") ++ "_\n" ++ "---\n" ++
        "*Sender Details:*\n" ++ "- *Name:* " ++ pyStrip data.name ++ "\n" ++
        "- *Email:* " ++ pyStrip data.email ++ "\n" ++ "---\n" ++
        "*Message:*\n" ++ pyStrip data.message) ∧
    '.' ∉ (pySplitDotHead (isoformatUTC now)).data := by
  refine ⟨?_, pySplitDotHead_no_dot _⟩
  simp [send_message, sendMessageBody_valid_eq data now _ h, telegramMessage]

/-- Witness for C9: the template delivered for a concrete valid submission
at a concrete instant. -/
theorem valid_submission_delivered_template_witness :
    (send_message data0 t0 .sendSuccess).deliveredText =
      some ("*New Message*\n" ++ "_Received on: " ++
        (pySplitDotHead (isoformatUTC t0) ++ " UTC") ++ "_\n" ++ "---\n" ++
        "*Sender Details:*\n" ++ "- *Name:* " ++ pyStrip data0.name ++ "\n" ++
        "- *Email:* " ++ pyStrip data0.email ++ "\n" ++ "---\n" ++
        "*Message:*\n" ++ pyStrip data0.message) ∧
    '.' ∉ (pySplitDotHead (isoformatUTC t0)).data :=
  valid_submission_delivered_template data0 t0 (by decide)

/-- Handler-level half of the configuration-absence story: once a request
does reach the handler, a raise from the in-handler `Bot(...)` construction
(line 87, outside the inner `try`, so caught by the outer
`except Exception`) or a `TelegramError` from the delivery call (caught at
line 97, e.g. an absent/unknown chat id) is returned as an error response
(status 500) whose detail contains the underlying message, rather than
crashing the request. -/
theorem missing_config_surfaces_as_delivery_failure (data : MessageData)
    (now : PyDatetime) (h : validSubmission data) (m : String) :
    (∃ d, (send_message data now (.ctorRaises m)).result = .httpError 500 d ∧
       ∃ pre, d = pre ++ m) ∧
    (∃ d, (send_message data now (.sendRaisesTelegram m)).result = .httpError 500 d ∧
       ∃ pre, d = pre ++ m) := by
  constructor
  · refine ⟨"Server error: " ++ m, ?_, "Server error: ", rfl⟩
    simp [send_message, sendMessageBody_valid_eq data now _ h, pyExcStr]
  · refine ⟨"Server error: 500: Failed to send message: " ++ m, ?_,
      "Server error: 500: Failed to send message: ", rfl⟩
    simp [send_message, sendMessageBody_valid_eq data now _ h, pyExcStr]
    rw [← String.append_assoc, ← String.append_assoc]
    rfl

/-- Concrete instance of the handler-level fact: a valid submission where
the collaborator raises with the message `InvalidToken`. -/
theorem missing_config_handler_instance :
    (∃ d, (send_message data0 t0 (.ctorRaises "InvalidToken")).result
        = .httpError 500 d ∧ ∃ pre, d = pre ++ "InvalidToken") ∧
    (∃ d, (send_message data0 t0 (.sendRaisesTelegram "InvalidToken")).result
        = .httpError 500 d ∧ ∃ pre, d = pre ++ "InvalidToken") :=
  missing_config_surfaces_as_delivery_failure data0 t0 (by decide) "InvalidToken"

/-- C10: the spec claims that an absent bot token or chat id surfaces as a
delivery failure on `POST /send-message` and that the program does not
crash.  The chat-id half does behave that way (a `TelegramError` at the
delivery call is wrapped into a 500 by lines 97-102).  The token half does
not: line 18 runs `bot = Bot(token=TELEGRAM_BOT_TOKEN)` at module level with
no surrounding `try`, so with the token absent the constructor raises
`InvalidToken`, the exception propagates out of the module body, and the
program crashes at startup — no request is served at all.  This theorem
evaluates the embedded module initialization at the failing configuration
(token absent) and contrasts it with a present token. -/
theorem absent_token_crashes_at_startup :
    moduleStartup botCtorOutcome none = .crashed "InvalidToken" ∧
    moduleStartup botCtorOutcome none ≠ .started ∧
    moduleStartup botCtorOutcome (some "12345:abcde") = .started := by
  decide
